import Mathlib

/-!
Verification of `python_scaffold.py` (pyscaffold): a CLI tool that generates a
standardized Python project layout.

The embedding models:
* strings and the string operations used by the source (hyphen replacement,
  lowercasing, titlecasing) at the character-list level, for ASCII — the
  source only manipulates project metadata strings;
* the filesystem as a record of created directories and written files, where a
  path is a list of components relative to the current working directory
  (every path in the source is built with `os.path.join(os.getcwd(), ...)`);
* the external environment (`Env`) as an oracle deciding which primitive
  filesystem operations succeed, plus the current clock year
  (`datetime.now().year`); OS-level failures (permissions, etc.) surface as
  `FsError` values and the embedding propagates them through `Except`;
* each method of `ProjectScaffolder` as a function from the scaffolder value
  and the filesystem to an `Except FsError` result that also returns the
  (possibly updated) scaffolder, so that mutation of `self` would be visible;
* `main` as the argument-driven entry point returning either a propagated
  `FsError` or an exit code together with the final filesystem.

Standard output (the `print` calls) is not modelled; no claim concerns it.
-/

/-- Python `str.lower()` for a single character, modelled for basic latin as in
the source's usage: codes 65–90 (`A`–`Z`) map to 97–122 (`a`–`z`), everything
else is unchanged.  This is exactly Lean core's `Char.toLower`. -/
def pyLowerChar (c : Char) : Char :=
  if 65 ≤ c.toNat ∧ c.toNat ≤ 90 then Char.ofNat (c.toNat + 32) else c

/-- Python `str.lower()`: lowercase every character. -/
def pyLower (s : String) : String :=
  ⟨s.data.map pyLowerChar⟩

/-- Python `str.replace("-", "_")`: the pattern is a single character, so the
replacement is a character map sending `-` to `_`. -/
def pyReplaceHyphen (s : String) : String :=
  ⟨s.data.map (fun c => if c = '-' then '_' else c)⟩

/-- Package-name derivation in `ProjectScaffolder.__init__` (line 29 of the
source): replace each hyphen with an underscore, then lowercase. -/
def packageName (project_name : String) : String :=
  pyLower (pyReplaceHyphen project_name)

/-- Python `str.isalpha()` for ASCII letters, as used by `str.title()`. -/
def pyIsAlpha (c : Char) : Bool :=
  (65 ≤ c.toNat ∧ c.toNat ≤ 90) ∨ (97 ≤ c.toNat ∧ c.toNat ≤ 122)

/-- Python `str.upper()` for a single character (basic latin). -/
def pyUpperChar (c : Char) : Char :=
  if 97 ≤ c.toNat ∧ c.toNat ≤ 122 then Char.ofNat (c.toNat - 32) else c

/-- Helper for `pyTitle`: the Boolean records whether the previous character
was alphabetic. -/
def pyTitleAux : List Char → Bool → List Char
  | [], _ => []
  | c :: cs, prevAlpha =>
    (if pyIsAlpha c then (if prevAlpha then pyLowerChar c else pyUpperChar c) else c)
      :: pyTitleAux cs (pyIsAlpha c)

/-- Python `str.title()`: the first letter of every alphabetic run is
uppercased, the rest lowercased; modelled for ASCII. -/
def pyTitle (s : String) : String :=
  ⟨pyTitleAux s.data false⟩

/-- A filesystem path, as a list of components relative to the current
working directory. -/
abbrev FPath := List String

/-- Failures raised by primitive filesystem operations (e.g. permission
errors).  The source never catches these, so they propagate. -/
inductive FsError where
  | mkdirFail (p : FPath)
  | writeFail (p : FPath)
  | venvFail (p : FPath)
deriving DecidableEq

/-- The filesystem state: the directories that exist and the log of file
writes (a later write to the same path overrides an earlier one). -/
structure FS where
  dirs : List FPath
  files : List (FPath × String)
deriving DecidableEq

def FS.empty : FS := ⟨[], []⟩

/-- The external environment: an oracle deciding which primitive operations
succeed (modelling OS-level failures such as permissions), and the current
year (`datetime.now().year`). -/
structure Env where
  mkdirOk : FPath → Bool
  writeOk : FPath → Bool
  venvOk : FPath → Bool
  year : Nat

/-- The benign environment: every filesystem operation succeeds; the clock
reads `y`. -/
def Env.allOk (y : Nat) : Env :=
  ⟨fun _ => true, fun _ => true, fun _ => true, y⟩

/-- Models `os.path.exists`: the path exists as a directory or as a file. -/
def pathExists (fs : FS) (p : FPath) : Bool :=
  decide (p ∈ fs.dirs) || decide (p ∈ fs.files.map Prod.fst)

/-- Models `os.makedirs` with the given exist-ok mode.  With `exist_ok=True` (the only mode the
source uses) the call ensures the directory exists and never raises for a
pre-existing directory; with `exist_ok=False` a pre-existing directory is an
error.  The oracle models OS-level failures. -/
def makedirs (env : Env) (fs : FS) (p : FPath) (existOk : Bool) : Except FsError FS :=
  if env.mkdirOk p then
    if existOk then .ok { fs with dirs := fs.dirs ++ [p] }
    else if fs.dirs.contains p then .error (.mkdirFail p)
    else .ok { fs with dirs := fs.dirs ++ [p] }
  else .error (.mkdirFail p)

/-- Models opening a file in write mode and writing `c`: append the write to the log
(overwriting any earlier content at `p`); the oracle models OS-level
failures. -/
def writeFile (env : Env) (fs : FS) (p : FPath) (c : String) : Except FsError FS :=
  if env.writeOk p then .ok { fs with files := fs.files ++ [(p, c)] }
  else .error (.writeFail p)

/-- Last-write-wins lookup in the write log. -/
def lookupLast : List (FPath × String) → FPath → Option String
  | [], _ => none
  | (q, c) :: t, p =>
    match lookupLast t p with
    | some c' => some c'
    | none => if q = p then some c else none

/-- The content currently visible at path `p`. -/
def readFile (fs : FS) (p : FPath) : Option String :=
  lookupLast fs.files p

/-- Models `venv.create` (with pip): modelled as creating the environment
directory; the packages installed inside it come from the external
interpreter and are not modelled.  The oracle models failures of the
provisioning step. -/
def venvCreate (env : Env) (fs : FS) (p : FPath) : Except FsError FS :=
  if env.venvOk p then .ok { fs with dirs := fs.dirs ++ [p] }
  else .error (.venvFail p)

/-- The `ProjectScaffolder` object: all fields assigned in `__init__`
(lines 18–32 of the source). -/
structure ProjectScaffolder where
  project_name : String
  use_tests : Bool
  use_docs : Bool
  use_venv : Bool
  author : String
  email : String
  description : String
  package_name : String
  base_dir : FPath
deriving DecidableEq

/-- Constructor `ProjectScaffolder.__init__`: stores the configuration, derives
`package_name` from `project_name`, and sets
`base_dir = os.path.join(os.getcwd(), project_name)` (paths are relative to
the current working directory in this model). -/
def ProjectScaffolder.init (project_name : String) (use_tests use_docs use_venv : Bool)
    (author email description : String) : ProjectScaffolder :=
  { project_name := project_name
    use_tests := use_tests
    use_docs := use_docs
    use_venv := use_venv
    author := author
    email := email
    description := description
    package_name := packageName project_name
    base_dir := [project_name] }

/-- Content of `<package>/__init__.py` (source lines 46–48). -/
def initPyContent (s : ProjectScaffolder) : String :=
  "\"\"\"Main package for " ++ s.project_name ++ ".\"\"\"\n\n"
    ++ "__version__ = \"0.1.0\"\n"

/-- Content of `tests/__init__.py` (source line 57).  The source writes a
plain (non-f) string, so the placeholder is emitted literally and the content
is a constant. -/
def testsInitContent : String :=
  "\"\"\"Test package for \x7bself.package_name\x7d.\"\"\"\n"

/-- Content of `tests/test_<package>.py` (source lines 60–66). -/
def testFileContent (s : ProjectScaffolder) : String :=
  "\"\"\"Tests for `" ++ s.package_name ++ "` package.\"\"\"\n\n"
    ++ "import pytest\n"
    ++ "from " ++ s.package_name ++ " import __version__\n\n\n"
    ++ "def test_version():\n"
    ++ "    \"\"\"Test version is a string.\"\"\"\n"
    ++ "    assert isinstance(__version__, str)\n"

/-- Content of `docs/index.md` (source lines 74–82). -/
def docsIndexContent (s : ProjectScaffolder) : String :=
  "# " ++ pyTitle s.project_name ++ "\n\n"
    ++ s.description ++ "\n\n"
    ++ "## Installation\n\n"
    ++ "```bash\npip install .\n```\n\n"
    ++ "## Usage\n\n"
    ++ "```python\n"
    ++ "import " ++ s.package_name ++ "\n"
    ++ "```\n"

/-- Content of `setup.py` (source lines 87–111). -/
def setupPyContent (s : ProjectScaffolder) : String :=
  "#!/usr/bin/env python3\n\n"
    ++ "from setuptools import setup, find_packages\n\n"
    ++ "with open(\"README.md\", \"r\", encoding=\"utf-8\") as f:\n"
    ++ "    long_description = f.read()\n\n"
    ++ "setup(\n"
    ++ "    name=\"" ++ s.project_name ++ "\",\n"
    ++ "    version=\"0.1.0\",\n"
    ++ "    author=\"" ++ s.author ++ "\",\n"
    ++ "    author_email=\"" ++ s.email ++ "\",\n"
    ++ "    description=\"" ++ s.description ++ "\",\n"
    ++ "    long_description=long_description,\n"
    ++ "    long_description_content_type=\"text/markdown\",\n"
    ++ "    url=\"https://github.com/" ++ s.author ++ "/" ++ s.project_name ++ "\",\n"
    ++ "    packages=find_packages(),\n"
    ++ "    classifiers=[\n"
    ++ "        \"Programming Language :: Python :: 3\",\n"
    ++ "        \"License :: OSI Approved :: MIT License\",\n"
    ++ "        \"Operating System :: OS Independent\",\n"
    ++ "    ],\n"
    ++ "    python_requires=\">=3.6\",\n"
    ++ "    install_requires=[\n"
    ++ "        # Add your dependencies here\n"
    ++ "    ],\n"
    ++ ")\n"

/-- Content of `pyproject.toml` (source lines 114–117). -/
def pyprojectContent : String :=
  "[build-system]\n"
    ++ "requires = [\"setuptools>=42\", \"wheel\"]\n"
    ++ "build-backend = \"setuptools.build_meta\"\n"

/-- Content of `setup.cfg` (source lines 120–140).  Every write is a plain
(non-f) string, so the `self.`-placeholders are emitted literally and the
whole content is a constant, independent of the configuration. -/
def setupCfgContent : String :=
  "[metadata]\n"
    ++ "name = \x7bself.project_name\x7d\n"
    ++ "description = \x7bself.description\x7d\n"
    ++ "author = \x7bself.author\x7d\n"
    ++ "license = MIT\n"
    ++ "license_file = LICENSE\n"
    ++ "platforms = unix, linux, osx, win32\n"
    ++ "classifiers =\n"
    ++ "    Programming Language :: Python :: 3\n"
    ++ "    Programming Language :: Python :: 3 :: Only\n"
    ++ "    Programming Language :: Python :: 3.6\n"
    ++ "    Programming Language :: Python :: 3.7\n"
    ++ "    Programming Language :: Python :: 3.8\n"
    ++ "    Programming Language :: Python :: 3.9\n"
    ++ "\n[options]\n"
    ++ "packages =\n"
    ++ "    \x7bself.package_name\x7d\n"
    ++ "install_requires =\n"
    ++ "python_requires = >=3.6\n"
    ++ "zip_safe = no\n"

/-- Content of `README.md` (source lines 144–159). -/
def readmeContent (s : ProjectScaffolder) : String :=
  "# " ++ pyTitle s.project_name ++ "\n\n"
    ++ s.description ++ "\n\n"
    ++ "## Features\n\n"
    ++ "* TODO\n\n"
    ++ "## Installation\n\n"
    ++ "```bash\n"
    ++ "pip install .\n"
    ++ "```\n\n"
    ++ "## Quick Start\n\n"
    ++ "```python\n"
    ++ "import " ++ s.package_name ++ "\n\n"
    ++ "# Add example usage\n"
    ++ "```\n\n"
    ++ "## License\n\n"
    ++ "This project is licensed under the MIT License - see the LICENSE file for details.\n"

/-- Content of `LICENSE` (source lines 163–180): depends on the current year
(`get_current_year`) and the author. -/
def licenseContent (year : Nat) (author : String) : String :=
  "MIT License\n\n"
    ++ "Copyright (c) " ++ toString year ++ " " ++ author ++ "\n\n"
    ++ "Permission is hereby granted, free of charge, to any person obtaining a copy\n"
    ++ "of this software and associated documentation files (the \"Software\"), to deal\n"
    ++ "in the Software without restriction, including without limitation the rights\n"
    ++ "to use, copy, modify, merge, publish, distribute, sublicense, and/or sell\n"
    ++ "copies of the Software, and to permit persons to whom the Software is\n"
    ++ "furnished to do so, subject to the following conditions:\n\n"
    ++ "The above copyright notice and this permission notice shall be included in all\n"
    ++ "copies or substantial portions of the Software.\n\n"
    ++ "THE SOFTWARE IS PROVIDED \"AS IS\", WITHOUT WARRANTY OF ANY KIND, EXPRESS OR\n"
    ++ "IMPLIED, INCLUDING BUT NOT LIMITED TO THE WARRANTIES OF MERCHANTABILITY,\n"
    ++ "FITNESS FOR A PARTICULAR PURPOSE AND NONINFRINGEMENT. IN NO EVENT SHALL THE\n"
    ++ "AUTHORS OR COPYRIGHT HOLDERS BE LIABLE FOR ANY CLAIM, DAMAGES OR OTHER\n"
    ++ "LIABILITY, WHETHER IN AN ACTION OF CONTRACT, TORT OR OTHERWISE, ARISING FROM,\n"
    ++ "OUT OF OR IN CONNECTION WITH THE SOFTWARE OR THE USE OR OTHER DEALINGS IN THE\n"
    ++ "SOFTWARE.\n"

/-- Content of `.gitignore` (source lines 184–211): a constant. -/
def gitignoreContent : String :=
  "# Byte-compiled / optimized / DLL files\n"
    ++ "__pycache__/\n"
    ++ "*.py[cod]\n"
    ++ "*$py.class\n\n"
    ++ "# Distribution / packaging\n"
    ++ "dist/\n"
    ++ "build/\n"
    ++ "*.egg-info/\n\n"
    ++ "# Unit test / coverage reports\n"
    ++ ".coverage\n"
    ++ "htmlcov/\n"
    ++ ".pytest_cache/\n\n"
    ++ "# Environments\n"
    ++ ".env\n"
    ++ ".venv\n"
    ++ "env/\n"
    ++ "venv/\n"
    ++ "ENV/\n\n"
    ++ "# IDE specific files\n"
    ++ ".idea/\n"
    ++ ".vscode/\n"
    ++ "*.swp\n"
    ++ "*.swo\n"

/-- Content of `Makefile` (source lines 228–277).  The `lint` and `coverage`
targets are written with plain (non-f) strings, so their `self.`-placeholders
are emitted literally and the whole content is a constant. -/
def makefileContent : String :=
  ".PHONY: clean clean-test clean-pyc clean-build help\n\n"
    ++ "help:\n"
    ++ "\t@echo \"clean - remove all build, test, coverage and Python artifacts\"\n"
    ++ "\t@echo \"clean-build - remove build artifacts\"\n"
    ++ "\t@echo \"clean-pyc - remove Python file artifacts\"\n"
    ++ "\t@echo \"clean-test - remove test and coverage artifacts\"\n"
    ++ "\t@echo \"lint - check style with flake8\"\n"
    ++ "\t@echo \"test - run tests quickly with the default Python\"\n"
    ++ "\t@echo \"coverage - check code coverage quickly with the default Python\"\n"
    ++ "\t@echo \"build - build the package\"\n"
    ++ "\t@echo \"install - install the package to the active Python site-packages\"\n\n"
    ++ "clean: clean-build clean-pyc clean-test\n\n"
    ++ "clean-build:\n"
    ++ "\trm -fr build/\n"
    ++ "\trm -fr dist/\n"
    ++ "\trm -fr .eggs/\n"
    ++ "\tfind . -name \"*.egg-info\" -exec rm -fr \x7b\x7d +\n"
    ++ "\tfind . -name \"*.egg\" -exec rm -f \x7b\x7d +\n\n"
    ++ "clean-pyc:\n"
    ++ "\tfind . -name \"*.pyc\" -exec rm -f \x7b\x7d +\n"
    ++ "\tfind . -name \"*.pyo\" -exec rm -f \x7b\x7d +\n"
    ++ "\tfind . -name \"*~\" -exec rm -f \x7b\x7d +\n"
    ++ "\tfind . -name \"__pycache__\" -exec rm -fr \x7b\x7d +\n\n"
    ++ "clean-test:\n"
    ++ "\trm -fr .coverage\n"
    ++ "\trm -fr htmlcov/\n"
    ++ "\trm -fr .pytest_cache\n\n"
    ++ "lint:\n"
    ++ "\tflake8 \x7bself.package_name\x7d tests\n\n"
    ++ "test:\n"
    ++ "\tpytest\n\n"
    ++ "coverage:\n"
    ++ "\tcoverage run --source \x7bself.package_name\x7d -m pytest\n"
    ++ "\tcoverage report -m\n"
    ++ "\tcoverage html\n\n"
    ++ "build:\n"
    ++ "\tpython setup.py sdist bdist_wheel\n\n"
    ++ "install:\n"
    ++ "\tpip install .\n"

namespace ProjectScaffolder

/-- Method `create_directory_structure` (source lines 34–82): create the base and
package directories, write the package `__init__.py`, and optionally the
tests and docs trees. -/
def create_directory_structure (s : ProjectScaffolder) (env : Env) (fs : FS) :
    Except FsError (ProjectScaffolder × FS) := do
  let fs ← makedirs env fs s.base_dir true
  let package_dir := s.base_dir ++ [s.package_name]
  let fs ← makedirs env fs package_dir true
  let fs ← writeFile env fs (package_dir ++ ["__init__.py"]) (initPyContent s)
  let fs ←
    if s.use_tests then do
      let tests_dir := s.base_dir ++ ["tests"]
      let fs ← makedirs env fs tests_dir true
      let fs ← writeFile env fs (tests_dir ++ ["__init__.py"]) testsInitContent
      writeFile env fs (tests_dir ++ ["test_" ++ s.package_name ++ ".py"]) (testFileContent s)
    else pure fs
  let fs ←
    if s.use_docs then do
      let docs_dir := s.base_dir ++ ["docs"]
      let fs ← makedirs env fs docs_dir true
      writeFile env fs (docs_dir ++ ["index.md"]) (docsIndexContent s)
    else pure fs
  return (s, fs)

/-- Method `create_setup_files` (source lines 84–140): write `setup.py`,
`pyproject.toml` and `setup.cfg`. -/
def create_setup_files (s : ProjectScaffolder) (env : Env) (fs : FS) :
    Except FsError (ProjectScaffolder × FS) := do
  let fs ← writeFile env fs (s.base_dir ++ ["setup.py"]) (setupPyContent s)
  let fs ← writeFile env fs (s.base_dir ++ ["pyproject.toml"]) pyprojectContent
  let fs ← writeFile env fs (s.base_dir ++ ["setup.cfg"]) setupCfgContent
  return (s, fs)

/-- Method `create_readme` (source lines 142–159). -/
def create_readme (s : ProjectScaffolder) (env : Env) (fs : FS) :
    Except FsError (ProjectScaffolder × FS) := do
  let fs ← writeFile env fs (s.base_dir ++ ["README.md"]) (readmeContent s)
  return (s, fs)

/-- Method `get_current_year` (source lines 279–282): `datetime.now().year`, a read
of the external clock. -/
def get_current_year (_ : ProjectScaffolder) (env : Env) : Nat :=
  env.year

/-- Method `create_license` (source lines 161–180). -/
def create_license (s : ProjectScaffolder) (env : Env) (fs : FS) :
    Except FsError (ProjectScaffolder × FS) := do
  let fs ← writeFile env fs (s.base_dir ++ ["LICENSE"])
    (licenseContent (s.get_current_year env) s.author)
  return (s, fs)

/-- Method `create_gitignore` (source lines 182–211). -/
def create_gitignore (s : ProjectScaffolder) (env : Env) (fs : FS) :
    Except FsError (ProjectScaffolder × FS) := do
  let fs ← writeFile env fs (s.base_dir ++ [".gitignore"]) gitignoreContent
  return (s, fs)

/-- Method `create_venv` (source lines 213–224): if requested, provision a virtual
environment at `<base>/venv` (the `print`ed activation hints are not
modelled). -/
def create_venv (s : ProjectScaffolder) (env : Env) (fs : FS) :
    Except FsError (ProjectScaffolder × FS) := do
  if s.use_venv then
    let fs ← venvCreate env fs (s.base_dir ++ ["venv"])
    return (s, fs)
  else
    return (s, fs)

/-- Method `create_makefile` (source lines 226–277). -/
def create_makefile (s : ProjectScaffolder) (env : Env) (fs : FS) :
    Except FsError (ProjectScaffolder × FS) := do
  let fs ← writeFile env fs (s.base_dir ++ ["Makefile"]) makefileContent
  return (s, fs)

/-- Method `scaffold` (source lines 284–297): run the whole scaffolding process. -/
def scaffold (s : ProjectScaffolder) (env : Env) (fs : FS) :
    Except FsError (ProjectScaffolder × FS) := do
  let (s, fs) ← s.create_directory_structure env fs
  let (s, fs) ← s.create_setup_files env fs
  let (s, fs) ← s.create_readme env fs
  let (s, fs) ← s.create_license env fs
  let (s, fs) ← s.create_gitignore env fs
  let (s, fs) ← s.create_makefile env fs
  let (s, fs) ←
    if s.use_venv then s.create_venv env fs
    else pure (s, fs)
  return (s, fs)

end ProjectScaffolder

/-- The parsed command-line arguments (source lines 302–344): the positional
project name, the three skip flags, and the metadata options. -/
structure Args where
  project_name : String
  no_tests : Bool
  no_docs : Bool
  no_venv : Bool
  author : String
  email : String
  description : String

/-- Entry point `main` (source lines 300–362; named `mainEntry` here because Lean
reserves `main` for executables): if the target path already exists in the
current working directory the process exits with code 1 before any write;
otherwise it constructs the scaffolder and runs it, finishing with exit
code 0.  Errors raised by filesystem operations are not caught and
propagate as `Except.error`. -/
def mainEntry (env : Env) (args : Args) (fs : FS) : Except FsError (Nat × FS) :=
  if pathExists fs [args.project_name] then .ok (1, fs)
  else do
    let scaffolder := ProjectScaffolder.init args.project_name
      (!args.no_tests) (!args.no_docs) (!args.no_venv)
      args.author args.email args.description
    let (_, fs) ← scaffolder.scaffold env fs
    return (0, fs)

def madeDirs (s : ProjectScaffolder) : List FPath :=
  [s.base_dir, s.base_dir ++ [s.package_name]]
    ++ (if s.use_tests then [s.base_dir ++ ["tests"]] else [])
    ++ (if s.use_docs then [s.base_dir ++ ["docs"]] else [])
    ++ (if s.use_venv then [s.base_dir ++ ["venv"]] else [])

def writtenFiles (s : ProjectScaffolder) (year : Nat) : List (FPath × String) :=
  [(s.base_dir ++ [s.package_name, "__init__.py"], initPyContent s)]
    ++ (if s.use_tests then
        [(s.base_dir ++ ["tests", "__init__.py"], testsInitContent),
         (s.base_dir ++ ["tests", "test_" ++ s.package_name ++ ".py"], testFileContent s)]
       else [])
    ++ (if s.use_docs then [(s.base_dir ++ ["docs", "index.md"], docsIndexContent s)] else [])
    ++ [(s.base_dir ++ ["setup.py"], setupPyContent s),
        (s.base_dir ++ ["pyproject.toml"], pyprojectContent),
        (s.base_dir ++ ["setup.cfg"], setupCfgContent),
        (s.base_dir ++ ["README.md"], readmeContent s),
        (s.base_dir ++ ["LICENSE"], licenseContent year s.author),
        (s.base_dir ++ [".gitignore"], gitignoreContent),
        (s.base_dir ++ ["Makefile"], makefileContent)]

/-- Two write logs agree entrywise on paths, and on contents except possibly
at path `q`. -/
def AgreeExcept (q : FPath) : List (FPath × String) → List (FPath × String) → Prop
  | [], [] => True
  | e₁ :: t₁, e₂ :: t₂ => e₁.1 = e₂.1 ∧ (e₁.1 ≠ q → e₁.2 = e₂.2) ∧ AgreeExcept q t₁ t₂
  | _, _ => False

/-- Directories created by `create_directory_structure`. -/
def cdsDirs (s : ProjectScaffolder) : List FPath :=
  [s.base_dir, s.base_dir ++ [s.package_name]]
    ++ (if s.use_tests then [s.base_dir ++ ["tests"]] else [])
    ++ (if s.use_docs then [s.base_dir ++ ["docs"]] else [])

/-- Files written by `create_directory_structure`. -/
def cdsFiles (s : ProjectScaffolder) : List (FPath × String) :=
  [(s.base_dir ++ [s.package_name, "__init__.py"], initPyContent s)]
    ++ (if s.use_tests then
        [(s.base_dir ++ ["tests", "__init__.py"], testsInitContent),
         (s.base_dir ++ ["tests", "test_" ++ s.package_name ++ ".py"], testFileContent s)]
       else [])
    ++ (if s.use_docs then [(s.base_dir ++ ["docs", "index.md"], docsIndexContent s)] else [])

/-- The files the specification expects in the target directory for a given
flag combination (claim C2): always the package `__init__.py`, `setup.py`,
`pyproject.toml`, `setup.cfg`, `README.md`, `LICENSE`, `.gitignore` and
`Makefile`; the tests files iff the tests flag is set; `docs/index.md` iff
the docs flag is set. -/
def expectedFiles (s : ProjectScaffolder) : List FPath :=
  [s.base_dir ++ [s.package_name, "__init__.py"],
   s.base_dir ++ ["setup.py"], s.base_dir ++ ["pyproject.toml"], s.base_dir ++ ["setup.cfg"],
   s.base_dir ++ ["README.md"], s.base_dir ++ ["LICENSE"], s.base_dir ++ [".gitignore"],
   s.base_dir ++ ["Makefile"]]
    ++ (if s.use_tests then
        [s.base_dir ++ ["tests", "__init__.py"],
         s.base_dir ++ ["tests", "test_" ++ s.package_name ++ ".py"]]
       else [])
    ++ (if s.use_docs then [s.base_dir ++ ["docs", "index.md"]] else [])

/-- Concrete project name used in counterexamples and witnesses. -/
def projLit : String := "proj"

def annLit : String := "ann"

def emailLit : String := "ann@example.com"

def descLit : String := "A Python package"

def cexBlank : String := ""

/-- Concrete CLI arguments. -/
def theArgs : Args := ⟨projLit, false, false, false, annLit, emailLit, descLit⟩

/-- The scaffolder `main` builds from `theArgs`. -/
def theScaffolder : ProjectScaffolder :=
  ProjectScaffolder.init projLit true true true annLit emailLit descLit

/-- A filesystem in which `./proj` already exists as a directory. -/
def theDirFS : FS := ⟨[[projLit]], []⟩

/-- A filesystem in which `./proj` already exists as a file. -/
def theFileFS : FS := ⟨[], [([projLit], cexBlank)]⟩

/-- An environment in which writing `./proj/LICENSE` fails (e.g. a permission
error) while everything else succeeds. -/
def failEnv : Env := ⟨fun _ => true, fun p => decide (p ≠ [projLit, "LICENSE"]), fun _ => true, 0⟩

/-- The adversarial project name for the claim C2 counterexample. -/
def cexName : String := "venv"

/-- Scaffolder for the project named `venv` with every optional flag off —
in particular the create-env flag is off. -/
def cexScaffolder : ProjectScaffolder :=
  ProjectScaffolder.init cexName false false false cexBlank cexBlank cexBlank

/-- Scaffolder used in the claim C4 counterexample. -/
def c4Scaffolder : ProjectScaffolder :=
  ProjectScaffolder.init projLit false false false annLit cexBlank cexBlank

theorem scaffold_allOk (s : ProjectScaffolder) (y : Nat) (fs : FS) :
    s.scaffold (Env.allOk y) fs =
      .ok (s, ⟨fs.dirs ++ madeDirs s, fs.files ++ writtenFiles s y⟩) := by
  obtain ⟨pn, ut, ud, uv, a, e, d, pk, bd⟩ := s
  cases ut <;> cases ud <;> cases uv <;>
    simp [ProjectScaffolder.scaffold, ProjectScaffolder.create_directory_structure,
      ProjectScaffolder.create_setup_files, ProjectScaffolder.create_readme,
      ProjectScaffolder.create_license, ProjectScaffolder.create_gitignore,
      ProjectScaffolder.create_makefile, ProjectScaffolder.create_venv,
      ProjectScaffolder.get_current_year,
      makedirs, writeFile, venvCreate, Env.allOk, madeDirs, writtenFiles,
      bind, Except.bind, pure, Except.pure, List.append_assoc]

theorem exceptBind_ok {ε α β : Type} (x : Except ε α) (f : α → Except ε β) (b : β) :
    x >>= f = .ok b ↔ ∃ a, x = .ok a ∧ f a = .ok b := by
  cases x <;> simp [Bind.bind, Except.bind]

theorem exceptPure_ok {ε α : Type} (a b : α) :
    (pure a : Except ε α) = .ok b ↔ a = b := by
  simp [pure, Except.pure]

theorem lookupLast_append_of_some {l₂ : List (FPath × String)} {p : FPath} {c : String}
    (h : lookupLast l₂ p = some c) (l₁ : List (FPath × String)) :
    lookupLast (l₁ ++ l₂) p = some c := by
  induction l₁ with
  | nil => simpa using h
  | cons hd t ih =>
    obtain ⟨q, cc⟩ := hd
    simp [lookupLast, ih]

theorem lookupLast_append_of_none {l₂ : List (FPath × String)} {p : FPath}
    (h : lookupLast l₂ p = none) (l₁ : List (FPath × String)) :
    lookupLast (l₁ ++ l₂) p = lookupLast l₁ p := by
  induction l₁ with
  | nil => simpa using h
  | cons hd t ih =>
    obtain ⟨q, cc⟩ := hd
    simp [lookupLast, ih]

theorem lookupLast_agreeExcept (q : FPath) :
    ∀ (l₁ l₂ : List (FPath × String)), AgreeExcept q l₁ l₂ →
      ∀ p, p ≠ q → lookupLast l₁ p = lookupLast l₂ p := by
  intro l₁
  induction l₁ with
  | nil =>
    intro l₂ h p hp
    cases l₂ with
    | nil => rfl
    | cons e t => exact absurd h (by simp [AgreeExcept])
  | cons e₁ t₁ ih =>
    intro l₂ h p hp
    cases l₂ with
    | nil => exact absurd h (by simp [AgreeExcept])
    | cons e₂ t₂ =>
      simp only [AgreeExcept] at h
      obtain ⟨h1, h2, h3⟩ := h
      have ihh := ih t₂ h3 p hp
      obtain ⟨q₁, c₁⟩ := e₁
      obtain ⟨q₂, c₂⟩ := e₂
      simp only at h1 h2
      subst h1
      simp only [lookupLast, ihh]
      cases hl : lookupLast t₂ p with
      | some c => rfl
      | none =>
        by_cases hqp : q₁ = p
        · subst hqp
          simp [h2 hp]
        · simp [hqp]

theorem makedirs_ok_eq {env : Env} {fs : FS} {p : FPath} {ok : Bool} {fs' : FS}
    (h : makedirs env fs p ok = .ok fs') : fs' = { fs with dirs := fs.dirs ++ [p] } := by
  unfold makedirs at h
  split at h
  · split at h
    · cases h; rfl
    · split at h
      · cases h
      · cases h; rfl
  · cases h

theorem writeFile_ok_eq {env : Env} {fs : FS} {p : FPath} {c : String} {fs' : FS}
    (h : writeFile env fs p c = .ok fs') : fs' = { fs with files := fs.files ++ [(p, c)] } := by
  unfold writeFile at h
  split at h
  · cases h; rfl
  · cases h

theorem venvCreate_ok_eq {env : Env} {fs : FS} {p : FPath} {fs' : FS}
    (h : venvCreate env fs p = .ok fs') : fs' = { fs with dirs := fs.dirs ++ [p] } := by
  unfold venvCreate at h
  split at h
  · cases h; rfl
  · cases h

theorem cds_ok_eq {s : ProjectScaffolder} {env : Env} {fs : FS} {r : ProjectScaffolder × FS}
    (h : s.create_directory_structure env fs = .ok r) :
    r = (s, ⟨fs.dirs ++ cdsDirs s, fs.files ++ cdsFiles s⟩) := by
  rcases hut : s.use_tests <;> rcases hud : s.use_docs <;>
    simp only [ProjectScaffolder.create_directory_structure, hut, hud, exceptBind_ok,
      exceptPure_ok, Bool.false_eq_true, if_true, if_false, ite_true, ite_false,
      exists_eq_left, exists_eq_left'] at h
  case false.false =>
    obtain ⟨f1, o1, f2, o2, f3, o3, hr⟩ := h
    obtain rfl := makedirs_ok_eq o1
    obtain rfl := makedirs_ok_eq o2
    obtain rfl := writeFile_ok_eq o3
    obtain rfl := hr.symm
    simp [cdsDirs, cdsFiles, hut, hud, List.append_assoc]
  case false.true =>
    obtain ⟨f1, o1, f2, o2, f3, o3, f4, o4, f5, o5, hr⟩ := h
    obtain rfl := makedirs_ok_eq o1
    obtain rfl := makedirs_ok_eq o2
    obtain rfl := writeFile_ok_eq o3
    obtain rfl := makedirs_ok_eq o4
    obtain rfl := writeFile_ok_eq o5
    obtain rfl := hr.symm
    simp [cdsDirs, cdsFiles, hut, hud, List.append_assoc]
  case true.false =>
    obtain ⟨f1, o1, f2, o2, f3, o3, f4, o4, f5, o5, f6, o6, hr⟩ := h
    obtain rfl := makedirs_ok_eq o1
    obtain rfl := makedirs_ok_eq o2
    obtain rfl := writeFile_ok_eq o3
    obtain rfl := makedirs_ok_eq o4
    obtain rfl := writeFile_ok_eq o5
    obtain rfl := writeFile_ok_eq o6
    obtain rfl := hr.symm
    simp [cdsDirs, cdsFiles, hut, hud, List.append_assoc]
  case true.true =>
    obtain ⟨f1, o1, f2, o2, f3, o3, f4, o4, f5, o5, f6, o6, f7, o7, f8, o8, hr⟩ := h
    obtain rfl := makedirs_ok_eq o1
    obtain rfl := makedirs_ok_eq o2
    obtain rfl := writeFile_ok_eq o3
    obtain rfl := makedirs_ok_eq o4
    obtain rfl := writeFile_ok_eq o5
    obtain rfl := writeFile_ok_eq o6
    obtain rfl := makedirs_ok_eq o7
    obtain rfl := writeFile_ok_eq o8
    obtain rfl := hr.symm
    simp [cdsDirs, cdsFiles, hut, hud, List.append_assoc]

theorem csf_ok_eq {s : ProjectScaffolder} {env : Env} {fs : FS} {r : ProjectScaffolder × FS}
    (h : s.create_setup_files env fs = .ok r) :
    r = (s, ⟨fs.dirs,
      fs.files ++ [(s.base_dir ++ ["setup.py"], setupPyContent s),
        (s.base_dir ++ ["pyproject.toml"], pyprojectContent),
        (s.base_dir ++ ["setup.cfg"], setupCfgContent)]⟩) := by
  simp only [ProjectScaffolder.create_setup_files, exceptBind_ok, exceptPure_ok,
    exists_eq_left, exists_eq_left'] at h
  obtain ⟨f1, o1, f2, o2, f3, o3, hr⟩ := h
  obtain rfl := writeFile_ok_eq o1
  obtain rfl := writeFile_ok_eq o2
  obtain rfl := writeFile_ok_eq o3
  obtain rfl := hr.symm
  simp [List.append_assoc]

theorem create_readme_ok_eq {s : ProjectScaffolder} {env : Env} {fs : FS}
    {r : ProjectScaffolder × FS} (h : s.create_readme env fs = .ok r) :
    r = (s, ⟨fs.dirs, fs.files ++ [(s.base_dir ++ ["README.md"], readmeContent s)]⟩) := by
  simp only [ProjectScaffolder.create_readme, exceptBind_ok, exceptPure_ok,
    exists_eq_left, exists_eq_left'] at h
  obtain ⟨f1, o1, hr⟩ := h
  obtain rfl := writeFile_ok_eq o1
  obtain rfl := hr.symm
  rfl

theorem create_license_ok_eq {s : ProjectScaffolder} {env : Env} {fs : FS}
    {r : ProjectScaffolder × FS} (h : s.create_license env fs = .ok r) :
    r = (s, ⟨fs.dirs,
      fs.files ++ [(s.base_dir ++ ["LICENSE"], licenseContent env.year s.author)]⟩) := by
  simp only [ProjectScaffolder.create_license, ProjectScaffolder.get_current_year,
    exceptBind_ok, exceptPure_ok, exists_eq_left, exists_eq_left'] at h
  obtain ⟨f1, o1, hr⟩ := h
  obtain rfl := writeFile_ok_eq o1
  obtain rfl := hr.symm
  rfl

theorem create_gitignore_ok_eq {s : ProjectScaffolder} {env : Env} {fs : FS}
    {r : ProjectScaffolder × FS} (h : s.create_gitignore env fs = .ok r) :
    r = (s, ⟨fs.dirs, fs.files ++ [(s.base_dir ++ [".gitignore"], gitignoreContent)]⟩) := by
  simp only [ProjectScaffolder.create_gitignore, exceptBind_ok, exceptPure_ok,
    exists_eq_left, exists_eq_left'] at h
  obtain ⟨f1, o1, hr⟩ := h
  obtain rfl := writeFile_ok_eq o1
  obtain rfl := hr.symm
  rfl

theorem create_makefile_ok_eq {s : ProjectScaffolder} {env : Env} {fs : FS}
    {r : ProjectScaffolder × FS} (h : s.create_makefile env fs = .ok r) :
    r = (s, ⟨fs.dirs, fs.files ++ [(s.base_dir ++ ["Makefile"], makefileContent)]⟩) := by
  simp only [ProjectScaffolder.create_makefile, exceptBind_ok, exceptPure_ok,
    exists_eq_left, exists_eq_left'] at h
  obtain ⟨f1, o1, hr⟩ := h
  obtain rfl := writeFile_ok_eq o1
  obtain rfl := hr.symm
  rfl

theorem create_venv_ok_eq {s : ProjectScaffolder} {env : Env} {fs : FS}
    {r : ProjectScaffolder × FS} (h : s.create_venv env fs = .ok r) :
    r = (s, ⟨fs.dirs ++ (if s.use_venv then [s.base_dir ++ ["venv"]] else []), fs.files⟩) := by
  rcases hv : s.use_venv <;>
    simp only [ProjectScaffolder.create_venv, hv, exceptBind_ok, exceptPure_ok,
      Bool.false_eq_true, if_true, if_false, ite_true, ite_false,
      exists_eq_left, exists_eq_left'] at h
  case false =>
    obtain rfl := h.symm
    simp
  case true =>
    obtain ⟨f1, o1, hr⟩ := h
    obtain rfl := venvCreate_ok_eq o1
    obtain rfl := hr.symm
    simp

theorem scaffold_ok_eq {s : ProjectScaffolder} {env : Env} {fs : FS} {r : ProjectScaffolder × FS}
    (h : s.scaffold env fs = .ok r) :
    r = (s, ⟨fs.dirs ++ madeDirs s, fs.files ++ writtenFiles s env.year⟩) := by
  simp only [ProjectScaffolder.scaffold, exceptBind_ok] at h
  obtain ⟨p1, h1, h⟩ := h
  obtain rfl := cds_ok_eq h1
  simp only [exceptBind_ok] at h
  obtain ⟨p2, h2, h⟩ := h
  obtain rfl := csf_ok_eq h2
  simp only [exceptBind_ok] at h
  obtain ⟨p3, h3, h⟩ := h
  obtain rfl := create_readme_ok_eq h3
  simp only [exceptBind_ok] at h
  obtain ⟨p4, h4, h⟩ := h
  obtain rfl := create_license_ok_eq h4
  simp only [exceptBind_ok] at h
  obtain ⟨p5, h5, h⟩ := h
  obtain rfl := create_gitignore_ok_eq h5
  simp only [exceptBind_ok] at h
  obtain ⟨p6, h6, h⟩ := h
  obtain rfl := create_makefile_ok_eq h6
  rcases hv : s.use_venv <;>
    simp only [hv, exceptBind_ok, exceptPure_ok, Bool.false_eq_true, if_true, if_false,
      ite_true, ite_false, exists_eq_left, exists_eq_left'] at h
  case false =>
    obtain rfl := h.symm
    simp [madeDirs, writtenFiles, cdsDirs, cdsFiles, hv, List.append_assoc]
  case true =>
    obtain ⟨p7, h7, hr⟩ := h
    obtain rfl := create_venv_ok_eq h7
    obtain rfl := hr.symm
    simp [madeDirs, writtenFiles, cdsDirs, cdsFiles, hv, List.append_assoc]

theorem mainEntry_of_exists {env : Env} {args : Args} {fs : FS}
    (h : pathExists fs [args.project_name] = true) :
    mainEntry env args fs = .ok (1, fs) := by
  unfold mainEntry
  rw [if_pos h]

theorem mainEntry_of_not_exists {env : Env} {args : Args} {fs : FS}
    (h : pathExists fs [args.project_name] = false) :
    mainEntry env args fs =
      Except.map (fun r => (0, r.2))
        ((ProjectScaffolder.init args.project_name (!args.no_tests) (!args.no_docs)
          (!args.no_venv) args.author args.email args.description).scaffold env fs) := by
  unfold mainEntry
  rw [if_neg (by simp [h])]
  cases hsc : (ProjectScaffolder.init args.project_name (!args.no_tests) (!args.no_docs)
      (!args.no_venv) args.author args.email args.description).scaffold env fs with
  | error e => simp [hsc, Except.map, Bind.bind, Except.bind]
  | ok r => simp [hsc, Except.map, Bind.bind, Except.bind, pure, Except.pure]

theorem toNat_charOfNat {n : Nat} (h : n < 55296) : (Char.ofNat n).toNat = n := by
  rw [Char.ofNat, dif_pos (Or.inl h)]
  rfl

theorem pyLowerChar_of_upper {c : Char} (h : 65 ≤ c.toNat ∧ c.toNat ≤ 90) :
    pyLowerChar c = Char.ofNat (c.toNat + 32) := by
  unfold pyLowerChar
  rw [if_pos h]

theorem pyLowerChar_of_not_upper {c : Char} (h : ¬(65 ≤ c.toNat ∧ c.toNat ≤ 90)) :
    pyLowerChar c = c := by
  unfold pyLowerChar
  rw [if_neg h]

theorem pyLowerChar_idem (c : Char) : pyLowerChar (pyLowerChar c) = pyLowerChar c := by
  by_cases h : 65 ≤ c.toNat ∧ c.toNat ≤ 90
  · rw [pyLowerChar_of_upper h]
    have ht : (Char.ofNat (c.toNat + 32)).toNat = c.toNat + 32 := toNat_charOfNat (by omega)
    apply pyLowerChar_of_not_upper
    rw [ht]
    omega
  · rw [pyLowerChar_of_not_upper h, pyLowerChar_of_not_upper h]

theorem pyLowerChar_ne_hyphen {c : Char} (h : c ≠ '-') : pyLowerChar c ≠ '-' := by
  by_cases hu : 65 ≤ c.toNat ∧ c.toNat ≤ 90
  · rw [pyLowerChar_of_upper hu]
    intro he
    have := congrArg Char.toNat he
    rw [toNat_charOfNat (by omega)] at this
    have hm : ('-').toNat = 45 := rfl
    omega
  · rw [pyLowerChar_of_not_upper hu]
    exact h

/-- The hyphen-replacement step of the package-name derivation, per character. -/
theorem hyphenStep_ne_hyphen (c : Char) : (if c = '-' then '_' else c) ≠ '-' := by
  by_cases hc : c = '-'
  · rw [if_pos hc]
    decide
  · rw [if_neg hc]
    exact hc

/-- The generated test file's name never collides with `__init__.py`. -/
theorem testfile_name_ne (x : String) : "test_" ++ x ++ ".py" ≠ "__init__.py" := by
  intro h
  have h0 : ("test_" ++ x ++ ".py").data.head? = some 't' := by
    rw [String.data_append, String.data_append]
    rfl
  rw [h] at h0
  exact absurd h0 (by decide)

theorem lookupLast_writtenFiles_readme (s : ProjectScaffolder) (y : Nat) :
    lookupLast (writtenFiles s y) (s.base_dir ++ ["README.md"]) = some (readmeContent s) := by
  rcases hut : s.use_tests <;> rcases hud : s.use_docs <;>
    simp [writtenFiles, lookupLast, hut, hud, List.append_right_inj]

theorem lookupLast_writtenFiles_setupCfg (s : ProjectScaffolder) (y : Nat) :
    lookupLast (writtenFiles s y) (s.base_dir ++ ["setup.cfg"]) = some setupCfgContent := by
  rcases hut : s.use_tests <;> rcases hud : s.use_docs <;>
    simp [writtenFiles, lookupLast, hut, hud, List.append_right_inj]

theorem lookupLast_writtenFiles_makefile (s : ProjectScaffolder) (y : Nat) :
    lookupLast (writtenFiles s y) (s.base_dir ++ ["Makefile"]) = some makefileContent := by
  rcases hut : s.use_tests <;> rcases hud : s.use_docs <;>
    simp [writtenFiles, lookupLast, hut, hud, List.append_right_inj]

theorem lookupLast_writtenFiles_testsInit (s : ProjectScaffolder) (y : Nat)
    (h : s.use_tests = true) :
    lookupLast (writtenFiles s y) (s.base_dir ++ ["tests", "__init__.py"]) =
      some testsInitContent := by
  rcases hud : s.use_docs <;>
    simp [writtenFiles, lookupLast, h, hud, List.append_right_inj, testfile_name_ne]

/-- Claim C3: the derived package name is the project name with every hyphen
replaced by an underscore and the result lowercased, and the derivation is
deterministic — any two scaffolders constructed from the same project name
(whatever the other options) have the same package name. -/
theorem claim_C3 (pn : String) (ut1 ud1 uv1 : Bool) (a1 e1 d1 : String)
    (ut2 ud2 uv2 : Bool) (a2 e2 d2 : String) :
    (ProjectScaffolder.init pn ut1 ud1 uv1 a1 e1 d1).package_name =
      (ProjectScaffolder.init pn ut2 ud2 uv2 a2 e2 d2).package_name ∧
    ((ProjectScaffolder.init pn ut1 ud1 uv1 a1 e1 d1).package_name).data =
      pn.data.map (fun c => if c = '-' then '_' else pyLowerChar c) := by
  refine ⟨rfl, ?_⟩
  show (pyLower (pyReplaceHyphen pn)).data = _
  simp only [pyLower, pyReplaceHyphen, List.map_map]
  apply List.map_congr_left
  intro c _
  by_cases hc : c = '-'
  · subst hc
    simp only [Function.comp_apply, if_pos rfl]
    decide
  · simp [Function.comp_apply, hc]

/-- Claim C10: package-name derivation is idempotent and its result never
contains a hyphen. -/
theorem claim_C10 (s : String) :
    packageName (packageName s) = packageName s ∧ '-' ∉ (packageName s).data := by
  constructor
  · apply String.ext
    show List.map pyLowerChar (List.map (fun c => if c = '-' then '_' else c)
        (List.map pyLowerChar (List.map (fun c => if c = '-' then '_' else c) s.data))) =
      List.map pyLowerChar (List.map (fun c => if c = '-' then '_' else c) s.data)
    simp only [List.map_map]
    apply List.map_congr_left
    intro c _
    simp only [Function.comp_apply]
    have hd : (if pyLowerChar (if c = '-' then '_' else c) = '-' then '_'
        else pyLowerChar (if c = '-' then '_' else c)) =
        pyLowerChar (if c = '-' then '_' else c) :=
      if_neg (by simpa using pyLowerChar_ne_hyphen (hyphenStep_ne_hyphen c))
    rw [hd, pyLowerChar_idem]
  · intro hm
    simp only [packageName, pyLower, pyReplaceHyphen, List.map_map, List.mem_map] at hm
    obtain ⟨c, -, hc⟩ := hm
    exact pyLowerChar_ne_hyphen (hyphenStep_ne_hyphen c) (by simpa using hc)

/-- Claim C9: the configuration is computed once at construction and never
mutated: every operation returns the scaffolder unchanged, so all fields
(project_name, package_name, the flags, author, email, description,
base_dir) are preserved. -/
theorem claim_C9 (s : ProjectScaffolder) (env : Env) (fs : FS) (r : ProjectScaffolder × FS) :
    (s.create_directory_structure env fs = .ok r → r.1 = s) ∧
    (s.create_setup_files env fs = .ok r → r.1 = s) ∧
    (s.create_readme env fs = .ok r → r.1 = s) ∧
    (s.create_license env fs = .ok r → r.1 = s) ∧
    (s.create_gitignore env fs = .ok r → r.1 = s) ∧
    (s.create_venv env fs = .ok r → r.1 = s) ∧
    (s.create_makefile env fs = .ok r → r.1 = s) ∧
    (s.scaffold env fs = .ok r → r.1 = s) := by
  refine ⟨fun h => ?_, fun h => ?_, fun h => ?_, fun h => ?_, fun h => ?_, fun h => ?_,
    fun h => ?_, fun h => ?_⟩
  · rw [cds_ok_eq h]
  · rw [csf_ok_eq h]
  · rw [create_readme_ok_eq h]
  · rw [create_license_ok_eq h]
  · rw [create_gitignore_ok_eq h]
  · rw [create_venv_ok_eq h]
  · rw [create_makefile_ok_eq h]
  · rw [scaffold_ok_eq h]

/-- Claim C7: the existence check lives only in the CLI entry point — calling
`scaffold` directly on a filesystem where the target directory already exists
does not fail (directory creation uses `exist_ok=True`), and existing files
are silently overwritten (afterwards, e.g., `README.md` holds the freshly
generated content, whatever was there before). -/
theorem claim_C7 (s : ProjectScaffolder) (y : Nat) (fs : FS)
    (_hex : pathExists fs s.base_dir = true) :
    ∃ fs' : FS, s.scaffold (Env.allOk y) fs = .ok (s, fs') ∧
      readFile fs' (s.base_dir ++ ["README.md"]) = some (readmeContent s) := by
  refine ⟨_, scaffold_allOk s y fs, ?_⟩
  unfold readFile
  exact lookupLast_append_of_some (lookupLast_writtenFiles_readme s y) _

/-- Claim C8: whenever the target directory does not already exist and every
filesystem operation succeeds, the process terminates with exit code 0. -/
theorem claim_C8 (args : Args) (fs : FS) (y : Nat)
    (h : pathExists fs [args.project_name] = false) :
    ∃ fs' : FS, mainEntry (Env.allOk y) args fs = .ok (0, fs') := by
  rw [mainEntry_of_not_exists h, scaffold_allOk]
  exact ⟨_, rfl⟩

/-- Claim C6: a pre-existing target directory is the only error condition the
program detects (it is reported as exit code 1); otherwise `main` is exactly
the scaffolding run with its errors propagated unchanged — no other failure
is caught, there is no retry and no partial-failure recovery. -/
theorem claim_C6 (env : Env) (args : Args) (fs : FS) :
    (pathExists fs [args.project_name] = true → mainEntry env args fs = .ok (1, fs)) ∧
    (pathExists fs [args.project_name] = false →
      mainEntry env args fs =
        Except.map (fun r => (0, r.2))
          ((ProjectScaffolder.init args.project_name (!args.no_tests) (!args.no_docs)
            (!args.no_venv) args.author args.email args.description).scaffold env fs)) :=
  ⟨mainEntry_of_exists, mainEntry_of_not_exists⟩

/-- Claim C1: if a file or directory with the project name already exists in
the current working directory, the program fails before performing any write
(the filesystem is returned unchanged) and exits with code 1; in particular,
after any invocation that succeeded with exit code 0, running the tool again
with the same project name is rejected with exit code 1. -/
theorem claim_C1 (env env2 : Env) (args : Args) (fs fs2 : FS) :
    (pathExists fs [args.project_name] = true → mainEntry env args fs = .ok (1, fs)) ∧
    (mainEntry env args fs = .ok (0, fs2) → mainEntry env2 args fs2 = .ok (1, fs2)) := by
  constructor
  · exact mainEntry_of_exists
  · intro h
    rcases hpe : pathExists fs [args.project_name] with _ | _
    · rw [mainEntry_of_not_exists hpe] at h
      cases hsc : (ProjectScaffolder.init args.project_name (!args.no_tests) (!args.no_docs)
          (!args.no_venv) args.author args.email args.description).scaffold env fs with
      | error e =>
        rw [hsc] at h
        exact absurd h (by simp [Except.map])
      | ok r =>
        rw [hsc] at h
        simp only [Except.map, Except.ok.injEq, Prod.mk.injEq, true_and] at h
        obtain rfl := h
        obtain rfl := scaffold_ok_eq hsc
        apply mainEntry_of_exists
        simp [pathExists, madeDirs, ProjectScaffolder.init]
    · rw [mainEntry_of_exists hpe] at h
      exact absurd h (by simp)

/-- Claim C2 (amended): scaffolding a fresh name produces exactly the
expected files for the flag combination, and a `venv` directory exists in
the target if and only if the create-env flag is set or the derived package
name is itself `venv` (in which case the package directory is named `venv`). -/
theorem claim_C2 (pn a e de : String) (ut ud uv : Bool) (y : Nat) :
    ∃ fs' : FS,
      (ProjectScaffolder.init pn ut ud uv a e de).scaffold (Env.allOk y) FS.empty =
        .ok (ProjectScaffolder.init pn ut ud uv a e de, fs') ∧
      (∀ p : FPath, p ∈ fs'.files.map Prod.fst ↔
        p ∈ expectedFiles (ProjectScaffolder.init pn ut ud uv a e de)) ∧
      ([pn, "venv"] ∈ fs'.dirs ↔ (uv = true ∨ packageName pn = "venv")) := by
  refine ⟨_, scaffold_allOk _ y FS.empty, ?_, ?_⟩
  · intro p
    cases ut <;> cases ud <;>
      simp [writtenFiles, expectedFiles, ProjectScaffolder.init, FS.empty] <;> tauto
  · cases uv <;>
      simp [madeDirs, ProjectScaffolder.init, FS.empty, eq_comm]

/-- Claim C4 (amended): the emitted files are a deterministic function of the
configuration together with the current year read when writing `LICENSE`;
every generated file other than `LICENSE` depends on the configuration only
(two runs with the same configuration but different clock years agree on all
of them), and two runs with the same configuration and the same year are
identical. -/
theorem claim_C4 (s : ProjectScaffolder) (y1 y2 : Nat) (p : FPath)
    (hp : p ≠ s.base_dir ++ ["LICENSE"]) :
    ((s.scaffold (Env.allOk y1) FS.empty).toOption.map (fun r => readFile r.2 p)) =
      ((s.scaffold (Env.allOk y2) FS.empty).toOption.map (fun r => readFile r.2 p)) ∧
    (y1 = y2 → s.scaffold (Env.allOk y1) FS.empty = s.scaffold (Env.allOk y2) FS.empty) := by
  constructor
  · rw [scaffold_allOk, scaffold_allOk]
    simp only [Except.toOption, Option.map, Option.some.injEq]
    unfold readFile
    apply lookupLast_agreeExcept (s.base_dir ++ ["LICENSE"]) _ _ ?_ p hp
    cases hut : s.use_tests <;> cases hud : s.use_docs <;>
      simp [writtenFiles, AgreeExcept, hut, hud, FS.empty]
  · rintro rfl
    rfl

/-- Claim C5: several generated portions contain the literal un-substituted
placeholder text instead of the configured values: `setup.cfg`, the tests
`__init__.py` and the `Makefile` are constants (independent of every
configuration field), and they contain the literal `\x7bself.…\x7d`
placeholder lines. -/
theorem infix_append_self {α : Type} (l t : List α) : l <:+: l ++ t :=
  ⟨[], t, rfl⟩

theorem infix_append_left {α : Type} {l m : List α} (a : List α) (h : l <:+: m) :
    l <:+: a ++ m := by
  obtain ⟨s, t, rfl⟩ := h
  exact ⟨a ++ s, t, by simp [List.append_assoc]⟩

set_option maxRecDepth 4096 in
theorem claim_C5 (s : ProjectScaffolder) (y : Nat) :
    ((s.scaffold (Env.allOk y) FS.empty).toOption.map
      (fun r => readFile r.2 (s.base_dir ++ ["setup.cfg"]))) = some (some setupCfgContent) ∧
    (s.use_tests = true →
      ((s.scaffold (Env.allOk y) FS.empty).toOption.map
        (fun r => readFile r.2 (s.base_dir ++ ["tests", "__init__.py"]))) =
          some (some testsInitContent)) ∧
    ((s.scaffold (Env.allOk y) FS.empty).toOption.map
      (fun r => readFile r.2 (s.base_dir ++ ["Makefile"]))) = some (some makefileContent) ∧
    ("name = \x7bself.project_name\x7d\n").data <:+: setupCfgContent.data ∧
    ("description = \x7bself.description\x7d\n").data <:+: setupCfgContent.data ∧
    ("author = \x7bself.author\x7d\n").data <:+: setupCfgContent.data ∧
    ("    \x7bself.package_name\x7d\n").data <:+: setupCfgContent.data ∧
    ("\x7bself.package_name\x7d").data <:+: testsInitContent.data ∧
    ("flake8 \x7bself.package_name\x7d tests").data <:+: makefileContent.data ∧
    ("coverage run --source \x7bself.package_name\x7d").data <:+: makefileContent.data := by
  refine ⟨?_, fun hut => ?_, ?_, ?_, ?_, ?_, ?_, ?_, ?_, ?_⟩
  · rw [scaffold_allOk]
    simp [Except.toOption, readFile, FS.empty, lookupLast_writtenFiles_setupCfg]
  · rw [scaffold_allOk]
    simp [Except.toOption, readFile, FS.empty, lookupLast_writtenFiles_testsInit s y hut]
  · rw [scaffold_allOk]
    simp [Except.toOption, readFile, FS.empty, lookupLast_writtenFiles_makefile]
  all_goals
    simp only [setupCfgContent, testsInitContent, makefileContent, String.data_append,
      List.append_assoc]
  all_goals
    repeat first
      | exact infix_append_self _ _
      | (refine List.IsInfix.trans ?_ (infix_append_self _ _); decide)
      | apply infix_append_left
      | decide

/-- Witness for claim C1 at concrete inputs. -/
theorem claim_C1_witness :
    mainEntry (Env.allOk 0) theArgs theDirFS = .ok (1, theDirFS) ∧
    mainEntry (Env.allOk 0) theArgs ⟨madeDirs theScaffolder, writtenFiles theScaffolder 0⟩ =
      .ok (1, ⟨madeDirs theScaffolder, writtenFiles theScaffolder 0⟩) :=
  ⟨(claim_C1 (Env.allOk 0) (Env.allOk 0) theArgs theDirFS theDirFS).1 (by decide),
   (claim_C1 (Env.allOk 0) (Env.allOk 0) theArgs FS.empty
      ⟨madeDirs theScaffolder, writtenFiles theScaffolder 0⟩).2
    (by rw [mainEntry_of_not_exists (by decide), scaffold_allOk]; rfl)⟩

/-- Witness for claim C6 at concrete inputs: a pre-existing file with the
project name, and a run in which the `LICENSE` write fails. -/
theorem claim_C6_witness :
    mainEntry (Env.allOk 0) theArgs theFileFS = .ok (1, theFileFS) ∧
    mainEntry failEnv theArgs FS.empty =
      Except.map (fun r => (0, r.2))
        ((ProjectScaffolder.init theArgs.project_name (!theArgs.no_tests) (!theArgs.no_docs)
          (!theArgs.no_venv) theArgs.author theArgs.email
          theArgs.description).scaffold failEnv FS.empty) :=
  ⟨(claim_C6 (Env.allOk 0) theArgs theFileFS).1 (by decide),
   (claim_C6 failEnv theArgs FS.empty).2 (by decide)⟩

/-- Witness for claim C7 at a filesystem where the target directory exists. -/
theorem claim_C7_witness :
    ∃ fs' : FS, theScaffolder.scaffold (Env.allOk 7) theDirFS = .ok (theScaffolder, fs') ∧
      readFile fs' (theScaffolder.base_dir ++ ["README.md"]) =
        some (readmeContent theScaffolder) :=
  claim_C7 theScaffolder 7 theDirFS (by decide)

/-- Witness for claim C8 at concrete inputs. -/
theorem claim_C8_witness :
    ∃ fs' : FS, mainEntry (Env.allOk 8) theArgs FS.empty = .ok (0, fs') :=
  claim_C8 theArgs FS.empty 8 (by decide)

/-- Witness for claim C9 at concrete inputs (the `create_readme` step). -/
theorem claim_C9_witness :
    (theScaffolder,
      (⟨[], [([projLit, "README.md"], readmeContent theScaffolder)]⟩ : FS)).1 =
      theScaffolder :=
  (claim_C9 theScaffolder (Env.allOk 9) FS.empty
    (theScaffolder, ⟨[], [([projLit, "README.md"], readmeContent theScaffolder)]⟩)).2.2.1 rfl

/-- Witness for claim C4 at concrete inputs. -/
theorem claim_C4_witness :
    ((theScaffolder.scaffold (Env.allOk 1) FS.empty).toOption.map
      (fun r => readFile r.2 [projLit, "README.md"])) =
      ((theScaffolder.scaffold (Env.allOk 2) FS.empty).toOption.map
        (fun r => readFile r.2 [projLit, "README.md"])) ∧
    theScaffolder.scaffold (Env.allOk 3) FS.empty =
      theScaffolder.scaffold (Env.allOk 3) FS.empty :=
  ⟨(claim_C4 theScaffolder 1 2 [projLit, "README.md"] (by decide)).1,
   (claim_C4 theScaffolder 3 3 [projLit, "README.md"] (by decide)).2 rfl⟩

/-- Witness for claim C5 at concrete inputs (the tests flag is set). -/
theorem claim_C5_witness :
    ((theScaffolder.scaffold (Env.allOk 5) FS.empty).toOption.map
      (fun r => readFile r.2 (theScaffolder.base_dir ++ ["tests", "__init__.py"]))) =
      some (some testsInitContent) :=
  (claim_C5 theScaffolder 5).2.1 rfl

/-- Counterexample for claim C2 as stated: for the project named `venv` with
the create-env flag unset, scaffolding succeeds and the target directory
nevertheless contains a directory named `venv` (it is the package
directory), so the claimed equivalence that a venv directory exists exactly
when the create-env flag is set fails. -/
theorem claim_C2_counterexample :
    ((cexScaffolder.scaffold (Env.allOk 2024) FS.empty).toOption.map
      (fun r => decide ([cexName, cexName] ∈ r.2.dirs))) = some true ∧
    cexScaffolder.use_venv = false := by
  exact ⟨by decide, rfl⟩

/-- Counterexample for claim C4 as stated: two runs with the identical
configuration started in different clock years produce different `LICENSE`
contents — the emitted text depends on `datetime.now().year`, which is not
part of the configuration. -/
theorem claim_C4_counterexample :
    ((c4Scaffolder.scaffold (Env.allOk 2024) FS.empty).toOption.map
      (fun r => readFile r.2 [projLit, "LICENSE"])) ≠
      ((c4Scaffolder.scaffold (Env.allOk 2025) FS.empty).toOption.map
        (fun r => readFile r.2 [projLit, "LICENSE"])) := by
  decide
